import Mathlib

/-!
Shallow embedding of the in-memory user repository found in
`src/test-rust-example.rs` and theorems settling the specification
claims about it.

Modelling choices:
- `chrono::DateTime<chrono::Utc>` timestamps are modelled as natural
  numbers; the value of `chrono::Utc::now()` is supplied as an explicit
  clock argument `now` to the operations that read the clock.
- `HashMap<u64, User>` is modelled as an association list
  `List (Nat × User)` with `List.lookup` playing the role of
  `HashMap::get`; `u64` ids become `Nat` (no arithmetic is ever
  performed on them in the source, so overflow cannot arise).
- Every repository operation is embedded in state-passing style
  `InMemoryUserRepository → InMemoryUserRepository × Except StorageError α`,
  which makes frame properties (which operations change the state)
  directly expressible. In the source the methods take `&self`, so
  the state component returned is the input state unchanged; in
  particular the insertion and counter increment inside `create_user`
  are commented out in the source (lines 63-65) and are therefore
  absent here as well.
-/

/-- Mirrors `struct User` (source lines 6-12). -/
structure User where
  id : Nat
  name : String
  email : String
  created_at : Nat
deriving Repr, DecidableEq

/-- Mirrors `struct CreateUserRequest` (source lines 14-18). -/
structure CreateUserRequest where
  name : String
  email : String
deriving Repr, DecidableEq

/-- Generic storage error, modelling the `Box<dyn std::error::Error>`
associated error type of the repository (source line 53). The source
never constructs one, but the type is inhabited. -/
structure StorageError where
  msg : String
deriving Repr, DecidableEq

/-- Mirrors `struct InMemoryUserRepository` (source lines 28-31): the keyed
collection of users and the `next_id` counter. -/
structure InMemoryUserRepository where
  users : List (Nat × User)
  next_id : Nat
deriving Repr, DecidableEq

/-- Mirrors `InMemoryUserRepository::new` (source lines 34-39): empty
collection, counter starting at 1. -/
def new : InMemoryUserRepository :=
  { users := [], next_id := 1 }

/-- Mirrors `create_user` (source lines 55-68): builds a `User` from
`self.next_id`, the request fields and the current time, and returns it
wrapped in `Ok`. The insertion `self.users.insert(user.id, user.clone())`
and the increment `self.next_id += 1` are commented out in the source
(lines 63-65), so the store state is returned unchanged. -/
def create_user (s : InMemoryUserRepository) (request : CreateUserRequest)
    (now : Nat) : InMemoryUserRepository × Except StorageError User :=
  let user : User :=
    { id := s.next_id, name := request.name, email := request.email,
      created_at := now }
  (s, Except.ok user)

/-- Mirrors `find_user` (source lines 70-72):
`Ok(self.users.get(&id).cloned())`. -/
def find_user (s : InMemoryUserRepository) (id : Nat) :
    InMemoryUserRepository × Except StorageError (Option User) :=
  (s, Except.ok (s.users.lookup id))

/-- Mirrors `list_users` (source lines 74-76):
`Ok(self.users.values().cloned().collect())`. -/
def list_users (s : InMemoryUserRepository) :
    InMemoryUserRepository × Except StorageError (List User) :=
  (s, Except.ok (s.users.map Prod.snd))

/-- Mirrors `InMemoryUserRepository::initialize` (source lines 41-49):
calls `create_user` with the "John Doe" fixture request, propagates an
error with `?`, and otherwise returns `Ok(())`. -/
def initStore (s : InMemoryUserRepository) (now : Nat) :
    InMemoryUserRepository × Except StorageError Unit :=
  match create_user s { name := "John Doe", email := "john@example.com" } now with
  | (s2, Except.ok _) => (s2, Except.ok ())
  | (s2, Except.error e) => (s2, Except.error e)

/-- Concrete request of the spec's concrete scenario. -/
def johnReq : CreateUserRequest :=
  { name := "John Doe", email := "john@example.com" }

/-- User value that `create_user` builds for `johnReq` on a fresh store at
clock value 0. -/
def johnUser : User :=
  { id := 1, name := "John Doe", email := "john@example.com", created_at := 0 }

/-- C1: counterexample. On the fresh store, `create_user` with the John Doe
request returns `Ok` of a user with id 1, yet `find_user 1` on the resulting
store state returns `Ok none` rather than the created user: the source never
inserts the user it returns. -/
theorem c1_create_then_find_counterexample :
    (create_user new johnReq 0).2 = Except.ok johnUser ∧
    (find_user (create_user new johnReq 0).1 1).2 = Except.ok none ∧
    (Except.ok none : Except StorageError (Option User)) ≠
      Except.ok (some johnUser) := by
  refine ⟨rfl, rfl, ?_⟩
  simp

/-- C2: counterexample. Two consecutive `create_user` calls on one store
both return a user with id 1, because `next_id` is never incremented; the
returned ids are not pairwise distinct. -/
theorem c2_duplicate_id_counterexample :
    (create_user new johnReq 0).2 = Except.ok johnUser ∧
    (create_user (create_user new johnReq 0).1 johnReq 1).2 =
      Except.ok { id := 1, name := "John Doe", email := "john@example.com",
                  created_at := 1 } :=
  ⟨rfl, rfl⟩

/-- C3: counterexample. After one successful `create_user`, `list_users`
returns `Ok []`: zero records instead of the one claimed, because the
creation is never stored. -/
theorem c3_list_completeness_counterexample :
    (create_user new johnReq 0).2 = Except.ok johnUser ∧
    (list_users (create_user new johnReq 0).1).2 = Except.ok [] ∧
    ([] : List User).length ≠ 1 := by
  refine ⟨rfl, rfl, ?_⟩
  simp

/-- C4: counterexample for the concrete scenario. The create call itself
returns the claimed user and `find_user 2` returns `Ok none` as claimed,
but `find_user 1` returns `Ok none` instead of `Ok (some johnUser)` and
`list_users` returns `Ok []` instead of `Ok [johnUser]`. -/
theorem c4_scenario_counterexample :
    (create_user new johnReq 0).2 = Except.ok johnUser ∧
    (find_user (create_user new johnReq 0).1 1).2 = Except.ok none ∧
    (list_users (create_user new johnReq 0).1).2 = Except.ok [] ∧
    (find_user (create_user new johnReq 0).1 2).2 = Except.ok none :=
  ⟨rfl, rfl, rfl, rfl⟩

/-- C5: for every store state and every id absent from the store's
collection, `find_user` returns `Ok none`: absence is reported as a valid
`none` result, never as an error. -/
theorem c5_absence_is_ok_none (s : InMemoryUserRepository) (id : Nat)
    (h : s.users.lookup id = none) :
    (find_user s id).2 = Except.ok none := by
  simp [find_user, h]

theorem c5_absence_witness :
    new.users.lookup 7 = none ∧ (find_user new 7).2 = Except.ok none :=
  ⟨rfl, c5_absence_is_ok_none new 7 rfl⟩

/-- C6: reads are idempotent. Calling `list_users` twice with no
intervening create returns identical results, and likewise for
`find_user` at any id, for every store state. -/
theorem c6_idempotent_reads (s : InMemoryUserRepository) (id : Nat) :
    (list_users (list_users s).1).2 = (list_users s).2 ∧
    (find_user (find_user s id).1 id).2 = (find_user s id).2 :=
  ⟨rfl, rfl⟩

/-- C7: field provenance. Whenever `create_user` returns `Ok u`, the
user's `name` and `email` are copied from the request and `created_at`
is the clock value read at creation. -/
theorem c7_field_provenance (s : InMemoryUserRepository)
    (request : CreateUserRequest) (now : Nat) (u : User)
    (h : (create_user s request now).2 = Except.ok u) :
    u.name = request.name ∧ u.email = request.email ∧ u.created_at = now := by
  injection h with hu
  subst hu
  exact ⟨rfl, rfl, rfl⟩

theorem c7_field_provenance_witness :
    (create_user new johnReq 0).2 = Except.ok johnUser ∧
    (johnUser.name = johnReq.name ∧ johnUser.email = johnReq.email ∧
      johnUser.created_at = 0) :=
  ⟨rfl, c7_field_provenance new johnReq 0 johnUser rfl⟩

/-- C8: reads are pure. For every store state, `find_user` and
`list_users` return the store state exactly unchanged. -/
theorem c8_reads_pure (s : InMemoryUserRepository) (id : Nat) :
    (find_user s id).1 = s ∧ (list_users s).1 = s :=
  ⟨rfl, rfl⟩

/-- C9: `create_user` always returns `Ok`, leaves the store state (users
collection and `next_id` counter) exactly unchanged, and the returned id
is the pre-call `next_id`; consequently a repeated call on the same store
returns a user with the same id `s.next_id` again. -/
theorem c9_create_leaves_state_unchanged (s : InMemoryUserRepository)
    (r r2 : CreateUserRequest) (now now2 : Nat) :
    (create_user s r now).1 = s ∧
    (create_user s r now).2 =
      Except.ok { id := s.next_id, name := r.name, email := r.email,
                  created_at := now } ∧
    (create_user (create_user s r now).1 r2 now2).2 =
      Except.ok { id := s.next_id, name := r2.name, email := r2.email,
                  created_at := now2 } :=
  ⟨rfl, rfl, rfl⟩

/-- C10: a store built by `new` has an empty users collection and
`next_id = 1`; on it `list_users` returns `Ok []` and `find_user` returns
`Ok none` for every id; `initStore` (the source's seeding method) returns
`Ok ()` while the users collection stays empty, so the fixture record is
not retrievable afterwards. -/
theorem c10_fresh_store (id now : Nat) :
    new.users = [] ∧ new.next_id = 1 ∧
    (list_users new).2 = Except.ok [] ∧
    (find_user new id).2 = Except.ok none ∧
    (initStore new now).2 = Except.ok () ∧
    (initStore new now).1.users = [] :=
  ⟨rfl, rfl, rfl, rfl, rfl, rfl⟩
